import Mathlib

/-!
Verification development for the interview-session component of
`officialnewbharat-art/interviewer-by-internadda`.

The definitions below are a shallow embedding of the React component
`src/components/InterviewSession.tsx` (the variant actually mounted by
`src/App.tsx`), together with the alternative audio-scheduling handler found
in `src/unnamed/part_001`.  Machine floats are modelled as rationals, the
component's mutable refs and `useState` cells as fields of an explicit state
record, and the callback bodies as pure state transformers.
-/

/-- Connection status, from the `useState` cell at
`src/components/InterviewSession.tsx:28`:
`'connecting' | 'connected' | 'error'`. -/
inductive Status where
  | connecting
  | connected
  | error
deriving DecidableEq, Repr

/-- Transcript speakers, from the `transcriptLines` element type at
`src/components/InterviewSession.tsx:31`: `{speaker: 'user' | 'ai', text}`. -/
inductive Speaker where
  | user
  | ai
deriving DecidableEq, Repr

/-- One element of the `transcriptLines` state array
(`src/components/InterviewSession.tsx:31`). -/
structure TranscriptLine where
  speaker : Speaker
  text : String
deriving DecidableEq, Repr

/-- The observable session state: the component's `useState` cells and the
mutable refs that the claims are about
(`src/components/InterviewSession.tsx:28-59`).  `scheduledShutdowns` counts
the `setTimeout` shutdown tasks queued by `handleTermination`. -/
structure SessionState where
  status : Status
  terminationTriggered : Bool
  recordedReason : Option String
  scheduledShutdowns : Nat
  systemMessage : Option String
  timeLeft : Nat
  tabSwitchCount : Nat
  transcriptLines : List TranscriptLine
  fullTranscriptHistory : List String
  isConnected : Bool
  isAiSpeaking : Bool
  isWaitingForResponse : Bool
  isUserSpeaking : Bool
  nextAudioStartTime : ℚ
deriving DecidableEq, Repr

/-- The state right after `onopen` fired: `status = 'connected'`,
`isConnectedRef.current = true`, `timeLeft = 600`
(`src/components/InterviewSession.tsx:35,242-246`), with no termination
triggered and empty transcripts. -/
def connState : SessionState :=
  { status := Status.connected
    terminationTriggered := false
    recordedReason := none
    scheduledShutdowns := 0
    systemMessage := none
    timeLeft := 600
    tabSwitchCount := 0
    transcriptLines := []
    fullTranscriptHistory := []
    isConnected := true
    isAiSpeaking := false
    isWaitingForResponse := false
    isUserSpeaking := false
    nextAudioStartTime := 0 }

/-- `handleTermination` from `src/components/InterviewSession.tsx:100-111`:
guarded by the single-shot flag `terminationTriggeredRef`; on the first call
it sets the flag, shows the system message, and schedules (via `setTimeout`)
one `disconnect(); onComplete(...)` task.  Later calls return immediately. -/
def handleTermination (reason : String) (s : SessionState) : SessionState :=
  if s.terminationTriggered then s
  else
    { s with
      terminationTriggered := true
      recordedReason := some reason
      systemMessage := some ("Ending: " ++ reason)
      scheduledShutdowns := s.scheduledShutdowns + 1 }

/-- One tick of the 1 Hz countdown at `src/components/InterviewSession.tsx:369-377`:
`setTimeLeft(prev => if prev <= 1 then (handleTermination; 0) else prev - 1)`. -/
def timerTick (s : SessionState) : SessionState :=
  if s.timeLeft ≤ 1 then
    { handleTermination "Time Limit Exceeded" s with timeLeft := 0 }
  else
    { s with timeLeft := s.timeLeft - 1 }

/-- `handleVisibilityChange` from `src/components/InterviewSession.tsx:379-387`:
when the document becomes hidden, increment the tab-switch counter, record a
warning message, and once the counter reaches 3 call `handleTermination`. -/
def handleVisibilityChange (hidden : Bool) (s : SessionState) : SessionState :=
  if hidden then
    let n := s.tabSwitchCount + 1
    let s1 :=
      { s with
        tabSwitchCount := n
        systemMessage := some ("Warning: Tab switch detected (" ++ toString n ++ "/3)") }
    if 3 ≤ n then handleTermination "Disqualified: Excessive Tab Switching" s1 else s1
  else s

/-- A detected focus loss: `handleVisibilityChange` with `document.hidden = true`. -/
def focusLoss : SessionState → SessionState :=
  handleVisibilityChange true

/-- The transport `onerror` callback at `src/components/InterviewSession.tsx:321-324`:
it only runs `setStatus('error')`. -/
def onTransportError (s : SessionState) : SessionState :=
  { s with status := Status.error }

/-- The transport `onclose` callback at `src/components/InterviewSession.tsx:325-327`:
it only runs `setStatus('error')`. -/
def onTransportClose (s : SessionState) : SessionState :=
  { s with status := Status.error }

theorem handleTermination_of_triggered (r : String) (s : SessionState)
    (h : s.terminationTriggered = true) : handleTermination r s = s := by
  simp [handleTermination, h]

theorem foldl_handleTermination_of_triggered (rs : List String) (s : SessionState)
    (h : s.terminationTriggered = true) :
    rs.foldl (fun st r => handleTermination r st) s = s := by
  induction rs with
  | nil => rfl
  | cons r rest ih =>
      simp only [List.foldl_cons, handleTermination_of_triggered r s h]
      exact ih

/-- C1.  Termination is single-shot: folding any non-empty sequence of
termination triggers through `handleTermination` from an un-terminated state
records exactly the first trigger's reason, schedules exactly one shutdown
task, and leaves the single-shot flag set; any call on an already-terminated
state is a no-op. -/
theorem C1_termination_single_shot (rs : List String) (s : SessionState)
    (hne : rs ≠ []) (hs : s.terminationTriggered = false) :
    (rs.foldl (fun st r => handleTermination r st) s).recordedReason
        = some (rs.head hne) ∧
    (rs.foldl (fun st r => handleTermination r st) s).scheduledShutdowns
        = s.scheduledShutdowns + 1 ∧
    (rs.foldl (fun st r => handleTermination r st) s).terminationTriggered = true ∧
    ∀ r t, t.terminationTriggered = true → handleTermination r t = t := by
  cases rs with
  | nil => exact absurd rfl hne
  | cons r rest =>
      have hfirst : handleTermination r s =
          { s with
            terminationTriggered := true
            recordedReason := some r
            systemMessage := some ("Ending: " ++ r)
            scheduledShutdowns := s.scheduledShutdowns + 1 } := by
        simp [handleTermination, hs]
      have hrest :
          rest.foldl (fun st r' => handleTermination r' st) (handleTermination r s)
            = handleTermination r s := by
        apply foldl_handleTermination_of_triggered
        rw [hfirst]
      refine ⟨?_, ?_, ?_, ?_⟩
      · rw [List.foldl_cons, hrest, hfirst]; rfl
      · rw [List.foldl_cons, hrest, hfirst]
      · rw [List.foldl_cons, hrest, hfirst]
      · exact fun r' t ht => handleTermination_of_triggered r' t ht

/-- Witness for C1 at a concrete trigger sequence: a tool-call trigger
followed by a user-click trigger records the tool-call reason and schedules
one shutdown. -/
theorem C1_witness :
    ((["Completed", "User ended session"].foldl
        (fun st r => handleTermination r st) connState).recordedReason
      = some "Completed") ∧
    ((["Completed", "User ended session"].foldl
        (fun st r => handleTermination r st) connState).scheduledShutdowns = 1) := by
  have h := C1_termination_single_shot ["Completed", "User ended session"] connState
    (List.cons_ne_nil _ _) rfl
  exact ⟨h.1, h.2.1⟩

/-- C7.  Proctoring focus-loss behaviour: from the connected state, each of
the first two focus losses increments the counter and records a warning
without terminating; the third focus loss reaches the threshold 3 and
triggers termination with the tab-switching disqualification reason. -/
theorem C7_focus_loss_threshold :
    (focusLoss connState).tabSwitchCount = 1 ∧
    (focusLoss connState).systemMessage = some "Warning: Tab switch detected (1/3)" ∧
    (focusLoss connState).terminationTriggered = false ∧
    (focusLoss (focusLoss connState)).tabSwitchCount = 2 ∧
    (focusLoss (focusLoss connState)).systemMessage
      = some "Warning: Tab switch detected (2/3)" ∧
    (focusLoss (focusLoss connState)).terminationTriggered = false ∧
    (focusLoss (focusLoss connState)).scheduledShutdowns = 0 ∧
    (focusLoss (focusLoss (focusLoss connState))).tabSwitchCount = 3 ∧
    (focusLoss (focusLoss (focusLoss connState))).terminationTriggered = true ∧
    (focusLoss (focusLoss (focusLoss connState))).recordedReason
      = some "Disqualified: Excessive Tab Switching" ∧
    (focusLoss (focusLoss (focusLoss connState))).scheduledShutdowns = 1 := by
  decide

theorem timerTick_of_ge_two (s : SessionState) (h : 2 ≤ s.timeLeft) :
    timerTick s = { s with timeLeft := s.timeLeft - 1 } := by
  have hn : ¬ s.timeLeft ≤ 1 := by omega
  simp [timerTick, hn]

theorem timerTick_iterate_below (k : Nat) (hk : k ≤ 599) :
    timerTick^[k] connState = { connState with timeLeft := 600 - k } := by
  induction k with
  | zero => rfl
  | succ n ih =>
      have hn : n ≤ 599 := by omega
      have h2 : 2 ≤ ({ connState with timeLeft := 600 - n } : SessionState).timeLeft := by
        show 2 ≤ 600 - n
        omega
      rw [Function.iterate_succ_apply', ih hn, timerTick_of_ge_two _ h2]
      show ({ connState with timeLeft := 600 - n - 1 } : SessionState)
          = { connState with timeLeft := 600 - (n + 1) }
      rw [Nat.sub_sub]

/-- The terminated fixed point reached by the 600th timer tick. -/
def timedOutState : SessionState :=
  { connState with
    timeLeft := 0
    terminationTriggered := true
    recordedReason := some "Time Limit Exceeded"
    systemMessage := some "Ending: Time Limit Exceeded"
    scheduledShutdowns := 1 }

theorem timerTick_iterate_at_600 : timerTick^[600] connState = timedOutState := by
  rw [Function.iterate_succ_apply', timerTick_iterate_below 599 (by omega)]
  rfl

theorem timerTick_fixed (k : Nat) :
    timerTick^[k] timedOutState = timedOutState := by
  induction k with
  | zero => rfl
  | succ n ih => rw [Function.iterate_succ_apply', ih]; rfl

/-- C8.  Countdown timeout: with the default 600-second budget and no other
trigger, no termination fires before the 600th one-second tick, the 600th
tick records the timeout reason with `timeLeft = 0`, and the remaining time
after any number of ticks is `600 - k` (never negative). -/
theorem C8_timeout_after_600_ticks :
    (timerTick^[600] connState).terminationTriggered = true ∧
    (timerTick^[600] connState).recordedReason = some "Time Limit Exceeded" ∧
    (timerTick^[600] connState).timeLeft = 0 ∧
    (∀ k, k < 600 → (timerTick^[k] connState).terminationTriggered = false ∧
        (timerTick^[k] connState).recordedReason = none) ∧
    (∀ k, (timerTick^[k] connState).timeLeft = 600 - k) := by
  refine ⟨?_, ?_, ?_, ?_, ?_⟩
  · rw [timerTick_iterate_at_600]; rfl
  · rw [timerTick_iterate_at_600]; rfl
  · rw [timerTick_iterate_at_600]; rfl
  · intro k hk
    rw [timerTick_iterate_below k (by omega)]
    exact ⟨rfl, rfl⟩
  · intro k
    by_cases hk : k ≤ 599
    · rw [timerTick_iterate_below k hk]
    · have hsplit : k = (k - 600) + 600 := by omega
      rw [hsplit, Function.iterate_add_apply, timerTick_iterate_at_600, timerTick_fixed]
      show (0 : Nat) = 600 - (k - 600 + 600)
      omega

/-- Witness for C8: after 599 ticks the session is still un-terminated with
one second left; instantiating the universally quantified parts at k = 599. -/
theorem C8_witness :
    (timerTick^[599] connState).terminationTriggered = false ∧
    (timerTick^[599] connState).timeLeft = 1 :=
  ⟨(C8_timeout_after_600_ticks.2.2.2.1 599 (by omega)).1,
   C8_timeout_after_600_ticks.2.2.2.2 599⟩

/-- Counterexample for C4 as stated: a transport close arriving in the
connected state sets the status to `'error'`, but schedules no shutdown,
leaves the termination flag clear, and leaves `isConnectedRef` true, so the
capture callback keeps running and no shutdown sequence executes. -/
theorem C4_counterexample :
    (onTransportClose connState).status = Status.error ∧
    (onTransportClose connState).terminationTriggered = false ∧
    (onTransportClose connState).scheduledShutdowns = 0 ∧
    (onTransportClose connState).recordedReason = none ∧
    (onTransportClose connState).isConnected = true ∧
    (onTransportError connState).terminationTriggered = false ∧
    (onTransportError connState).scheduledShutdowns = 0 := by
  decide

/-- C4 (amended).  A transport error or close never leaves the recorded
status as `Connected` — both callbacks set it to `'error'` — but they change
nothing else: no termination is triggered and no shutdown sequence runs at
that point. -/
theorem C4_transport_error_sets_error (s : SessionState) :
    (onTransportError s).status = Status.error ∧
    (onTransportClose s).status = Status.error ∧
    (onTransportError s).status ≠ Status.connected ∧
    (onTransportClose s).status ≠ Status.connected ∧
    onTransportError s = { s with status := Status.error } ∧
    onTransportClose s = { s with status := Status.error } ∧
    (onTransportError s).terminationTriggered = s.terminationTriggered ∧
    (onTransportError s).scheduledShutdowns = s.scheduledShutdowns ∧
    (onTransportClose s).terminationTriggered = s.terminationTriggered ∧
    (onTransportClose s).scheduledShutdowns = s.scheduledShutdowns := by
  refine ⟨rfl, rfl, ?_, ?_, rfl, rfl, rfl, rfl, rfl, rfl⟩ <;> simp [onTransportError, onTransportClose]

/-- The individual cleanup actions of `disconnect`
(`src/components/InterviewSession.tsx:62-98`), in the order the claims speak
about them. -/
inductive ShutdownStep where
  | detachCaptureCallback
  | closeTransport
  | releaseCaptureDevice
  | releaseOutputDevice
  | releaseInputDevice
  | cancelAnimationTimer
  | stopPlaybackSources
deriving DecidableEq, Repr

/-- The resource handles `disconnect` touches:
`scriptProcessor` — `scriptProcessorRef.current` is non-null;
`session` — `sessionRef.current` is non-null, with `sessionCloseThrows`
recording whether its `close()` would throw (the call sits in a try/catch);
`stream` — `streamRef.current` is non-null;
`outputCtxOpen` / `inputCtxOpen` — the audio context ref is non-null and its
state is not `'closed'` (the guard at lines 83 and 86);
`animationId` — `animationRef.current` (0 when no frame was ever requested;
`cancelAnimationFrame` does not reset it);
`scheduledSources` — the size of `sourcesRef.current`, with
`sourceStopThrows` recording whether a `source.stop()` would throw (also in
a try/catch). -/
structure Resources where
  scriptProcessor : Bool
  session : Bool
  sessionCloseThrows : Bool
  stream : Bool
  outputCtxOpen : Bool
  inputCtxOpen : Bool
  animationId : Nat
  scheduledSources : Nat
  sourceStopThrows : Bool
deriving DecidableEq, Repr

/-- Outcome of one cleanup call: either it returned normally or it threw.
`disconnect` wraps `sessionRef.current.close()` and every `source.stop()` in
`try { ... } catch { ... }`, so a thrown error is swallowed and the sequence
continues. -/
def tryCall (throws : Bool) : Except Unit Unit :=
  if throws then Except.error () else Except.ok ()

/-- Shallow embedding of `disconnect`
(`src/components/InterviewSession.tsx:62-98`): it returns the list of
cleanup actions actually performed, in program order, and the resource state
afterwards.  Each block is guarded exactly as in the source; the results of
the two `tryCall`s are discarded (their catch blocks only log), so a throwing
`close()` or `stop()` never aborts the remaining steps.  `animationId` is
not reset by the source, and the `sourcesRef` set is cleared. -/
def disconnectRun (r : Resources) : List ShutdownStep × Resources :=
  let t1 := if r.scriptProcessor then [ShutdownStep.detachCaptureCallback] else []
  let t2 := if r.session then
      match tryCall r.sessionCloseThrows with
      | _ => [ShutdownStep.closeTransport]
    else []
  let t3 := if r.stream then [ShutdownStep.releaseCaptureDevice] else []
  let t4 := if r.outputCtxOpen then [ShutdownStep.releaseOutputDevice] else []
  let t5 := if r.inputCtxOpen then [ShutdownStep.releaseInputDevice] else []
  let t6 := if r.animationId ≠ 0 then [ShutdownStep.cancelAnimationTimer] else []
  let t7 := if r.scheduledSources ≠ 0 then
      match tryCall r.sourceStopThrows with
      | _ => [ShutdownStep.stopPlaybackSources]
    else []
  (t1 ++ t2 ++ t3 ++ t4 ++ t5 ++ t6 ++ t7,
   { r with
     scriptProcessor := false
     session := false
     stream := false
     outputCtxOpen := false
     inputCtxOpen := false
     scheduledSources := 0 })

/-- All resources live, as they are in a healthy connected session. -/
def liveResources : Resources :=
  { scriptProcessor := true
    session := true
    sessionCloseThrows := false
    stream := true
    outputCtxOpen := true
    inputCtxOpen := true
    animationId := 1
    scheduledSources := 2
    sourceStopThrows := false }

/-- What `onComplete` receives (`src/components/InterviewSession.tsx:109`). -/
structure CompletionCall where
  transcript : String
  reason : String
deriving DecidableEq, Repr

/-- The task `handleTermination` schedules
(`src/components/InterviewSession.tsx:107-110`): after a `setTimeout` delay
of 2000 ms it runs `disconnect()` and then calls `onComplete` with the
newline-joined transcript history and the captured reason.  `s` and `r` are
the session and resource state at the moment the timeout fires. -/
structure ShutdownOutcome where
  delayMs : Nat
  trace : List ShutdownStep
  completion : CompletionCall
deriving DecidableEq, Repr

def runScheduledShutdown (s : SessionState) (r : Resources) (reason : String) :
    ShutdownOutcome :=
  { delayMs := 2000
    trace := (disconnectRun r).1
    completion :=
      { transcript := String.intercalate "\n" s.fullTranscriptHistory
        reason := reason } }

/-- Counterexample for C3 as stated: in the shutdown executed from the fully
live resource state, the scheduled playback sources are stopped last — after
the capture device is released — and the output device is released before the
animation callback is cancelled, so the claimed order
(detach → close transport → stop sources → release capture → cancel timers →
release output) does not hold. -/
theorem C3_counterexample :
    (disconnectRun liveResources).1 =
      [ShutdownStep.detachCaptureCallback, ShutdownStep.closeTransport,
       ShutdownStep.releaseCaptureDevice, ShutdownStep.releaseOutputDevice,
       ShutdownStep.releaseInputDevice, ShutdownStep.cancelAnimationTimer,
       ShutdownStep.stopPlaybackSources] ∧
    ¬ ((disconnectRun liveResources).1.indexOf ShutdownStep.stopPlaybackSources
        < (disconnectRun liveResources).1.indexOf ShutdownStep.releaseCaptureDevice) ∧
    ¬ ((disconnectRun liveResources).1.indexOf ShutdownStep.cancelAnimationTimer
        < (disconnectRun liveResources).1.indexOf ShutdownStep.releaseOutputDevice) := by
  decide

/-- C3 (amended).  On entering termination the shutdown is scheduled behind a
2000 ms grace period; when it fires it executes, in order: detach capture
callback, close transport, release capture device, release output device,
release input device, cancel the pending animation callback, stop scheduled
playback sources — in particular the capture callback is detached before the
transport is closed — and `onComplete` receives the newline-joined transcript
history and the recorded reason only then. -/
theorem C3_shutdown_order (s : SessionState) (reason : String) :
    (runScheduledShutdown s liveResources reason).delayMs = 2000 ∧
    (runScheduledShutdown s liveResources reason).trace =
      [ShutdownStep.detachCaptureCallback, ShutdownStep.closeTransport,
       ShutdownStep.releaseCaptureDevice, ShutdownStep.releaseOutputDevice,
       ShutdownStep.releaseInputDevice, ShutdownStep.cancelAnimationTimer,
       ShutdownStep.stopPlaybackSources] ∧
    (runScheduledShutdown s liveResources reason).trace.indexOf
        ShutdownStep.detachCaptureCallback
      < (runScheduledShutdown s liveResources reason).trace.indexOf
        ShutdownStep.closeTransport ∧
    (runScheduledShutdown s liveResources reason).completion.transcript
      = String.intercalate "\n" s.fullTranscriptHistory ∧
    (runScheduledShutdown s liveResources reason).completion.reason = reason := by
  exact ⟨rfl, rfl, Nat.zero_lt_one, rfl, rfl⟩

/-- C9.  Every shutdown step is defensive: `disconnect` releases every
resource it owns, a second run performs no further state change and attempts
no second transport close and no second capture/stream/context release, and a
throwing transport `close()` or source `stop()` changes neither the actions
performed nor the final state. -/
theorem C9_shutdown_defensive (r : Resources) :
    (disconnectRun r).2.scriptProcessor = false ∧
    (disconnectRun r).2.session = false ∧
    (disconnectRun r).2.stream = false ∧
    (disconnectRun r).2.outputCtxOpen = false ∧
    (disconnectRun r).2.inputCtxOpen = false ∧
    (disconnectRun r).2.scheduledSources = 0 ∧
    (disconnectRun (disconnectRun r).2).2 = (disconnectRun r).2 ∧
    ShutdownStep.closeTransport ∉ (disconnectRun (disconnectRun r).2).1 ∧
    ShutdownStep.detachCaptureCallback ∉ (disconnectRun (disconnectRun r).2).1 ∧
    ShutdownStep.releaseCaptureDevice ∉ (disconnectRun (disconnectRun r).2).1 ∧
    ShutdownStep.releaseOutputDevice ∉ (disconnectRun (disconnectRun r).2).1 ∧
    ShutdownStep.stopPlaybackSources ∉ (disconnectRun (disconnectRun r).2).1 ∧
    (disconnectRun { r with sessionCloseThrows := true, sourceStopThrows := true }).1
      = (disconnectRun r).1 ∧
    (disconnectRun { r with sessionCloseThrows := true, sourceStopThrows := true }).2
      = { (disconnectRun r).2 with sessionCloseThrows := true, sourceStopThrows := true } := by
  by_cases ha : r.animationId = 0 <;>
    simp [disconnectRun, tryCall, ha]

/-- The playback-scheduling cursor `nextAudioStartTimeRef`
(`src/components/InterviewSession.tsx:44`). -/
structure SchedState where
  nextAudioStartTime : ℚ
deriving DecidableEq, Repr

/-- The audio-delta branch of `onmessage` in
`src/components/InterviewSession.tsx:300-310`: the decoded buffer is started
at `nextAudioStartTimeRef.current` as is — `audioContext.currentTime` (the
`clock` argument) is not consulted — and the cursor is advanced by the
buffer's duration.  Returns the start time passed to `src.start` and the new
cursor. -/
def scheduleAudioDelta (clock duration : ℚ) (st : SchedState) : ℚ × SchedState :=
  let _ := clock
  (st.nextAudioStartTime,
   { nextAudioStartTime := st.nextAudioStartTime + duration })

/-- The same branch in the variant `src/unnamed/part_001:268-271`:
`startTime = max(currentTime, nextAudioStartTimeRef.current)`, the buffer is
started at `startTime`, and the cursor becomes `startTime + duration`. -/
def scheduleAudioDelta_v1 (clock duration : ℚ) (st : SchedState) : ℚ × SchedState :=
  let startTime := max clock st.nextAudioStartTime
  (startTime, { nextAudioStartTime := startTime + duration })

/-- C2, evaluated at the failing input: when the output clock (5) has
advanced past the scheduling cursor (0), the handler in
`src/components/InterviewSession.tsx` starts the buffer at the stale cursor
value 0 — not at `max(clock, cursor) = 5` as the claim states — and advances
the cursor only to 1, so the cursor now lags the real output clock; the
variant in `src/unnamed/part_001` computes exactly the claimed `max`. -/
theorem C2_no_max_at_stale_cursor :
    (scheduleAudioDelta 5 1 { nextAudioStartTime := 0 }).1 = 0 ∧
    (scheduleAudioDelta 5 1 { nextAudioStartTime := 0 }).2.nextAudioStartTime = 1 ∧
    (scheduleAudioDelta 5 1 { nextAudioStartTime := 0 }).1 ≠ max (5 : ℚ) 0 ∧
    (scheduleAudioDelta_v1 5 1 { nextAudioStartTime := 0 }).1 = max (5 : ℚ) 0 ∧
    (scheduleAudioDelta_v1 5 1 { nextAudioStartTime := 0 }).2.nextAudioStartTime = 6 := by
  refine ⟨rfl, ?_, ?_, ?_, ?_⟩ <;>
    norm_num [scheduleAudioDelta, scheduleAudioDelta_v1]

/-- An inbound live-server message, following the fields `onmessage` consults
(`src/components/InterviewSession.tsx:273-319`):
`message.toolCall.functionCalls` (name plus the optional `reason` argument),
`message.serverContent.modelTurn.parts[0].text`,
`message.serverContent.turnComplete`, and
`message.serverContent.modelTurn.parts[0].inlineData` (represented by the
decoded buffer's duration). -/
structure FnCall where
  name : String
  reasonArg : Option String
deriving DecidableEq, Repr

structure LiveMessage where
  functionCalls : List FnCall
  modelTurnText : Option String
  turnComplete : Bool
  audioDuration : Option ℚ
deriving DecidableEq, Repr

/-- Shallow embedding of the `onmessage` callback body
(`src/components/InterviewSession.tsx:273-319`), branch by branch in source
order: a recognized `endInterview` tool call invokes `handleTermination` with
the `reason` argument or `"Completed"`; a text part is appended to
`transcriptLines` as an `ai` line and to `fullTranscriptHistory` prefixed
with `"AI: "`; `turnComplete` clears the speaking flag; an audio part is
scheduled at the cursor and advances it (the user's speech is never
transcribed anywhere in the component). -/
def processMessage (s : SessionState) (m : LiveMessage) : SessionState :=
  let s1 :=
    match m.functionCalls.find? (fun f => f.name == "endInterview") with
    | some call => handleTermination (call.reasonArg.getD "Completed") s
    | none => s
  let s2 :=
    match m.modelTurnText with
    | some t =>
        { s1 with
          transcriptLines := s1.transcriptLines ++ [{ speaker := Speaker.ai, text := t }]
          fullTranscriptHistory := s1.fullTranscriptHistory ++ ["AI: " ++ t]
          isAiSpeaking := true }
    | none => s1
  let s3 :=
    if m.turnComplete then
      { s2 with isAiSpeaking := false, isWaitingForResponse := true }
    else s2
  match m.audioDuration with
  | some d =>
      { s3 with nextAudioStartTime := s3.nextAudioStartTime + d, isAiSpeaking := true }
  | none => s3

theorem handleTermination_transcripts (r : String) (s : SessionState) :
    (handleTermination r s).fullTranscriptHistory = s.fullTranscriptHistory ∧
    (handleTermination r s).transcriptLines = s.transcriptLines := by
  unfold handleTermination
  by_cases h : s.terminationTriggered <;> simp [h]

/-- Every transcript entry `processMessage` can create is an agent entry. -/
theorem processMessage_transcript_inv (s : SessionState) (m : LiveMessage)
    (hHist : ∀ e ∈ s.fullTranscriptHistory, ∃ t, e = "AI: " ++ t)
    (hLines : ∀ l ∈ s.transcriptLines, l.speaker = Speaker.ai) :
    (∀ e ∈ (processMessage s m).fullTranscriptHistory, ∃ t, e = "AI: " ++ t) ∧
    (∀ l ∈ (processMessage s m).transcriptLines, l.speaker = Speaker.ai) := by
  unfold processMessage
  cases hfind : m.functionCalls.find? (fun f => f.name == "endInterview") with
  | none =>
      cases htext : m.modelTurnText with
      | none =>
          cases hturn : m.turnComplete <;> cases haudio : m.audioDuration <;>
            simp_all
      | some t =>
          cases hturn : m.turnComplete <;> cases haudio : m.audioDuration <;>
            · simp_all
              constructor
              · intro e he
                rcases he with he | he
                · exact hHist e he
                · exact ⟨t, he⟩
              · intro l hl
                rcases hl with hl | hl
                · exact hLines l hl
                · rw [hl]
  | some call =>
      have hh := handleTermination_transcripts (call.reasonArg.getD "Completed") s
      cases htext : m.modelTurnText with
      | none =>
          cases hturn : m.turnComplete <;> cases haudio : m.audioDuration <;>
            · simp_all [hh.1, hh.2]
      | some t =>
          cases hturn : m.turnComplete <;> cases haudio : m.audioDuration <;>
            · simp_all [hh.1, hh.2]
              constructor
              · intro e he
                rcases he with he | he
                · exact hHist e he
                · exact ⟨t, he⟩
              · intro l hl
                rcases hl with hl | hl
                · exact hLines l hl
                · rw [hl]

theorem foldl_processMessage_inv (ms : List LiveMessage) (s : SessionState)
    (hHist : ∀ e ∈ s.fullTranscriptHistory, ∃ t, e = "AI: " ++ t)
    (hLines : ∀ l ∈ s.transcriptLines, l.speaker = Speaker.ai) :
    (∀ e ∈ (ms.foldl processMessage s).fullTranscriptHistory, ∃ t, e = "AI: " ++ t) ∧
    (∀ l ∈ (ms.foldl processMessage s).transcriptLines, l.speaker = Speaker.ai) := by
  induction ms generalizing s with
  | nil => exact ⟨hHist, hLines⟩
  | cons m rest ih =>
      have h := processMessage_transcript_inv s m hHist hLines
      exact ih (processMessage s m) h.1 h.2

/-- C10.  The transcript contains only agent utterances: after any sequence
of inbound live messages processed from the connected state, every entry of
`fullTranscriptHistory` (the list joined and handed to `onComplete`) is some
text prefixed with `"AI: "`, and every `transcriptLines` entry carries the
`ai` speaker — the `user` speaker value is never used. -/
theorem C10_transcript_agent_only (ms : List LiveMessage) :
    (∀ e ∈ (ms.foldl processMessage connState).fullTranscriptHistory,
        ∃ t, e = "AI: " ++ t) ∧
    (∀ l ∈ (ms.foldl processMessage connState).transcriptLines,
        l.speaker = Speaker.ai) := by
  apply foldl_processMessage_inv
  · intro e he
    simp [connState] at he
  · intro l hl
    simp [connState] at hl

/-- Witness for C10 at a concrete message sequence: one text delta followed
by a turn completion produces the single history entry `"AI: Hello"`, whose
membership hypothesis the main theorem discharges. -/
theorem C10_witness :
    ∃ t, ("AI: Hello" : String) = "AI: " ++ t :=
  (C10_transcript_agent_only
      [{ functionCalls := [], modelTurnText := some "Hello",
         turnComplete := true, audioDuration := none }]).1
    "AI: Hello" (by decide)

/-- Modelled from the spec: `downsampleBuffer` is defined in
`src/utils/audio` (imported at `src/components/InterviewSession.tsx:4` and
called at line 267), a file not included in the provided sources.  Following
spec sections 4.1 and 8: the fractional source index of output sample `i` at
rates `sourceRate`/`targetRate` is `i * sourceRate / targetRate`. -/
def srcIndex (sourceRate targetRate i : ℕ) : ℚ :=
  (i * sourceRate : ℚ) / targetRate

/-- Modelled from the spec: linear interpolation between the two neighboring
input samples at fractional source index `pos` — with weight `pos - ⌊pos⌋`
on the right neighbor; at the end of the buffer the missing right neighbor
falls back to the left one. -/
def interpSample (frame : List ℚ) (pos : ℚ) : ℚ :=
  let i0 : ℕ := (Int.floor pos).toNat
  let frac : ℚ := pos - i0
  let s0 := frame.getD i0 0
  let s1 := frame.getD (i0 + 1) s0
  s0 * (1 - frac) + s1 * frac

/-- Modelled from the spec: `downsampleBuffer(frame, sourceRate, targetRate)`
produces `floor(frame.length * targetRate / sourceRate)` output samples, each
obtained by linear interpolation at its fractional source index. -/
def downsampleBuffer (frame : List ℚ) (sourceRate targetRate : ℕ) : List ℚ :=
  (List.range (frame.length * targetRate / sourceRate)).map
    (fun i => interpSample frame (srcIndex sourceRate targetRate i))

/-- C5.  For every captured frame and valid pair of rates, the downsampled
buffer has exactly `floor(frame.length * targetRate / sourceRate)` samples,
and each output sample is the linear interpolation of the neighboring input
samples at its fractional source index. -/
theorem C5_downsample_length_and_interp (frame : List ℚ)
    (sourceRate targetRate : ℕ) (hs : 0 < sourceRate) (ht : 0 < targetRate) :
    (downsampleBuffer frame sourceRate targetRate).length
      = frame.length * targetRate / sourceRate ∧
    ∀ i, i < frame.length * targetRate / sourceRate →
      (downsampleBuffer frame sourceRate targetRate).getD i 0
        = interpSample frame (srcIndex sourceRate targetRate i) := by
  constructor
  · simp [downsampleBuffer]
  · intro i hi
    have hlen : i < (downsampleBuffer frame sourceRate targetRate).length := by
      simpa [downsampleBuffer] using hi
    rw [List.getD_eq_getElem _ _ hlen]
    simp [downsampleBuffer]

/-- Witness for C5: a 4-sample frame downsampled from rate 4 to rate 2 yields
floor(4 * 2 / 4) = 2 samples. -/
theorem C5_witness :
    (downsampleBuffer [1, 0, 1, 0] 4 2).length = 2 :=
  (C5_downsample_length_and_interp [1, 0, 1, 0] 4 2
      (by norm_num) (by norm_num)).1

/-- The VAD energy computed by the capture callback at
`src/components/InterviewSession.tsx:254-256`: the mean of the squared
samples of the frame (for the empty frame the 0/0 division yields 0, and the
frame is classified as silent, as in the source where the comparison with
NaN is false). -/
def meanSquare (frame : List ℚ) : ℚ :=
  (frame.map (fun x => x * x)).sum / frame.length

/-- The VAD classification at `src/components/InterviewSession.tsx:258`:
`rms > 0.02` with `rms = sqrt(meanSquare)`.  Both sides of the source's
comparison are nonnegative, so it is equivalent to comparing the mean square
against `0.02^2 = 1/2500`, which keeps the embedding inside ℚ. -/
def vadSpeaking (frame : List ℚ) : Bool :=
  decide (1 / 2500 < meanSquare frame)

/-- C6.  VAD classification: a frame is classified as speaking exactly when
its RMS energy `r` (the nonnegative square root of the mean square) strictly
exceeds the threshold 0.02 = 1/50, and a frame whose RMS is exactly the
threshold is classified as not speaking; the classification is a function of
the frame's samples alone. -/
theorem C6_vad_threshold_exclusive (frame : List ℚ) (r : ℚ)
    (h0 : 0 ≤ r) (hr : r * r = meanSquare frame) :
    (vadSpeaking frame = true ↔ 1 / 50 < r) ∧
    (r = 1 / 50 → vadSpeaking frame = false) := by
  constructor
  · rw [vadSpeaking, decide_eq_true_iff, ← hr]
    constructor
    · intro h
      nlinarith
    · intro h
      nlinarith
  · intro h50
    have hms : meanSquare frame = 1 / 2500 := by
      rw [← hr, h50]
      norm_num
    simp [vadSpeaking, hms]

/-- Witness for C6 at the boundary frame: the one-sample frame `[1/50]` has
RMS exactly 1/50 = 0.02 and is classified as not speaking. -/
theorem C6_witness :
    (vadSpeaking [(1 : ℚ) / 50] = true ↔ (1 : ℚ) / 50 < 1 / 50) ∧
    ((1 : ℚ) / 50 = 1 / 50 → vadSpeaking [(1 : ℚ) / 50] = false) :=
  C6_vad_threshold_exclusive [(1 : ℚ) / 50] (1 / 50)
    (by norm_num) (by norm_num [meanSquare])
